import Mathlib

/-!
Verification of the seat-inventory booking core of the irctc-backend
repository: a shallow embedding, in Lean, of the data model
(`trains/models.py`, `bookings/models.py`) and of the booking
transaction (`BookingCreateSerializer.create` in
`bookings/serializers.py`), together with proofs of the specified
invariants (no oversell, seat uniqueness, version monotonicity,
atomicity) and of the behaviour of the auxiliary request paths
(PNR generation in `Booking.save`, API logging in
`utils/middleware.py` / `utils/mongo.py`, booking lookup in
`BookingDetailView.get`).

Conventions of the embedding:
* machine integers of the Python/MySQL code become `Nat` (all the
  relevant columns are unsigned: `PositiveSmallIntegerField`,
  `PositiveIntegerField`); Python's signed subtraction
  `total_seats - booked_seats` becomes subtraction in `Int`;
* one `ScheduleState` holds, for a single `TrainSchedule`, the train's
  `total_seats`, the schedule's `base_fare`, the `SeatAvailability`
  row and the committed `Booking` rows (each with its `Passenger`
  rows), which is exactly the data that the booking transaction reads
  and writes;
* the `select_for_update` row lock serialises the transactional block
  of `BookingCreateSerializer.create` per schedule, so a sequence of
  booking attempts is modelled as a fold of the transactional block
  over the state; the conditional `UPDATE ... WHERE version = v` is
  modelled explicitly so that the optimistic-guard path can also be
  analysed with a stale snapshot.
-/

/-- `SeatAvailability` (`trains/models.py`): the per-schedule ledger row.
`booked_seats` is a `PositiveSmallIntegerField` (default 0), `version`
a `PositiveIntegerField` (default 0) used for optimistic locking. -/
structure SeatAvailability where
  booked_seats : Nat
  version : Nat
  deriving Repr, DecidableEq

/-- `SeatAvailability.available_seats` (`trains/models.py`):
`self.schedule.train.total_seats - self.booked_seats`, Python integer
subtraction, so computed in `Int`. `capacity` is the train's
`total_seats`. -/
def SeatAvailability.available_seats (capacity : Nat) (a : SeatAvailability) : Int :=
  (capacity : Int) - (a.booked_seats : Int)

/-- `SeatAvailability.can_book` (`trains/models.py`):
`self.available_seats >= num_seats`. -/
def SeatAvailability.can_book (capacity : Nat) (a : SeatAvailability) (num_seats : Nat) : Bool :=
  decide ((num_seats : Int) ≤ a.available_seats capacity)

/-- Gender choices of `Passenger.GENDER_CHOICES` / the booking input
serializer (`'M'`, `'F'`, `'O'`). -/
inductive Gender where
  | M | F | O
  deriving Repr, DecidableEq

/-- One element of the `passengers` input list of
`BookingCreateSerializer` (`PassengerInputSerializer`): name, age,
gender. -/
structure PassengerInput where
  name : String
  age : Nat
  gender : Gender
  deriving Repr, DecidableEq

/-- A committed `Passenger` row (`bookings/models.py`): the input data
plus the assigned `seat_number`. -/
structure Passenger where
  name : String
  age : Nat
  gender : Gender
  seat_number : Nat
  deriving Repr, DecidableEq

/-- `Booking.STATUS_CHOICES` (`bookings/models.py`). -/
inductive BookingStatus where
  | PENDING | CONFIRMED | CANCELLED
  deriving Repr, DecidableEq

/-- A committed `Booking` row (`bookings/models.py`) together with its
`Passenger` rows (related name `passengers`). -/
structure Booking where
  user : Nat
  num_passengers : Nat
  total_fare : ℚ
  status : BookingStatus
  passengers : List Passenger
  deriving Repr, DecidableEq

/-- The database state relevant to bookings on one schedule: the
train's `total_seats` (capacity), the schedule's `base_fare`, the
`SeatAvailability` row and the committed bookings. -/
structure ScheduleState where
  capacity : Nat
  base_fare : ℚ
  avail : SeatAvailability
  bookings : List Booking
  deriving Repr, DecidableEq

/-- Outcome of one booking attempt, as surfaced by
`BookingCreateSerializer.create`: the created booking on success, or
the `ValidationError` raised on insufficient seats (carrying
`availability.available_seats`, quoted in the error message) or on a
lost optimistic-lock race. -/
inductive CreateResult where
  | success (b : Booking)
  | insufficientSeats (available : Int)
  | concurrentModification
  deriving Repr, DecidableEq

/-- The conditional ledger write of `BookingCreateSerializer.create`
(lines 150–156): `SeatAvailability.objects.filter(id=…,
version=expectedVersion).update(booked_seats=newBooked,
version=expectedVersion+1)`; the filter is keyed on the row's primary
key and on `version`, so the single row is updated iff its stored
`version` equals `expectedVersion`, and the returned value is the
affected-row count (1 or 0). -/
def conditionalUpdate (row : SeatAvailability) (expectedVersion newBooked : Nat) :
    SeatAvailability × Nat :=
  if row.version = expectedVersion then
    (⟨newBooked, expectedVersion + 1⟩, 1)
  else
    (row, 0)

/-- Seat assignment loop of `BookingCreateSerializer.create`
(lines 137–147): `for i, passenger_data in
enumerate(passengers_data): seat_number = current_booked + i + 1`. -/
def assignSeats (current_booked : Nat) (passengers_data : List PassengerInput) :
    List Passenger :=
  passengers_data.enum.map fun ip =>
    { name := ip.2.name, age := ip.2.age, gender := ip.2.gender,
      seat_number := current_booked + ip.1 + 1 }

/-- The transactional block of `BookingCreateSerializer.create`
(`with transaction.atomic():`, lines 115–163), with the row returned
by `select_for_update` made an explicit parameter `availability` (the
snapshot the code computes with). Under the exclusive row lock the
snapshot equals the stored row (`createBooking` below); passing a
stale snapshot models the optimistic-guard path, where the stored row
was mutated between read and commit.

Steps, in source order: re-check `can_book`; on failure raise
`ValidationError` (aborting the transaction, so the state is
unchanged and the actual `available_seats` is reported). Otherwise
create the `Booking` (status `CONFIRMED`) and its `Passenger` rows
with seats `current_booked + i + 1`, then perform the conditional
ledger update; if it reports 0 affected rows, raise `ValidationError`
(rolling back the booking and passenger inserts); else the
transaction commits. -/
def createAttempt (st : ScheduleState) (availability : SeatAvailability)
    (user : Nat) (passengers_data : List PassengerInput) :
    ScheduleState × CreateResult :=
  let num_passengers := passengers_data.length
  let total_fare := st.base_fare * num_passengers
  if ¬ availability.can_book st.capacity num_passengers then
    (st, .insufficientSeats (availability.available_seats st.capacity))
  else
    let booking : Booking :=
      { user := user, num_passengers := num_passengers, total_fare := total_fare,
        status := .CONFIRMED,
        passengers := assignSeats availability.booked_seats passengers_data }
    let committed := conditionalUpdate st.avail availability.version
      (availability.booked_seats + num_passengers)
    if committed.2 = 0 then
      (st, .concurrentModification)
    else
      ({ st with avail := committed.1, bookings := st.bookings ++ [booking] },
       .success booking)

/-- `BookingCreateSerializer.create` as executed under the
`select_for_update` lock: the snapshot read inside the transaction is
the stored `SeatAvailability` row. -/
def createBooking (st : ScheduleState) (user : Nat)
    (passengers_data : List PassengerInput) : ScheduleState × CreateResult :=
  createAttempt st st.avail user passengers_data

/-- A sequence of booking attempts (each request is a user id and a
passenger list), serialised by the per-row lock. -/
def runBookings (st : ScheduleState) (reqs : List (Nat × List PassengerInput)) :
    ScheduleState :=
  reqs.foldl (fun s r => (createBooking s r.1 r.2).1) st

/-- The state of a schedule at creation time (`seat_availability` row
created with the defaults `booked_seats=0`, `version=0`, no
bookings). -/
def initialSchedule (capacity : Nat) (base_fare : ℚ) : ScheduleState :=
  { capacity := capacity, base_fare := base_fare,
    avail := ⟨0, 0⟩, bookings := [] }

/-- Total passengers over the CONFIRMED bookings of a schedule. -/
def sumConfirmed (bs : List Booking) : Nat :=
  ((bs.filter fun b => b.status == .CONFIRMED).map
    fun b => b.passengers.length).sum

/-- All seat numbers assigned across all bookings of a schedule. -/
def allSeats (st : ScheduleState) : List Nat :=
  st.bookings.flatMap fun b => b.passengers.map Passenger.seat_number

/-- The `Booking` row built inside the transactional block on the
success path, from a ledger snapshot with `booked` booked seats. -/
def newBooking (booked : Nat) (fare : ℚ) (user : Nat)
    (ps : List PassengerInput) : Booking :=
  { user := user, num_passengers := ps.length, total_fare := fare * ps.length,
    status := .CONFIRMED, passengers := assignSeats booked ps }

theorem can_book_iff (c : Nat) (a : SeatAvailability) (n : Nat) :
    a.can_book c n = true ↔ a.booked_seats + n ≤ c := by
  simp only [SeatAvailability.can_book, SeatAvailability.available_seats,
    decide_eq_true_eq]
  omega

theorem assignSeats_length (b : Nat) (ps : List PassengerInput) :
    (assignSeats b ps).length = ps.length := by
  simp [assignSeats]

theorem assignSeats_map_seat (b : Nat) (ps : List PassengerInput) :
    (assignSeats b ps).map Passenger.seat_number =
      List.range' (b + 1) ps.length := by
  apply List.ext_getElem
  · simp [assignSeats]
  · intro i h1 h2
    simp [assignSeats, List.getElem_enum]
    omega

theorem assignSeats_map_name (b : Nat) (ps : List PassengerInput) :
    (assignSeats b ps).map Passenger.name = ps.map PassengerInput.name := by
  apply List.ext_getElem
  · simp [assignSeats]
  · intro i h1 h2
    simp [assignSeats, List.getElem_enum]

theorem createAttempt_insufficient (st : ScheduleState) (a : SeatAvailability)
    (u : Nat) (ps : List PassengerInput)
    (h : a.can_book st.capacity ps.length = false) :
    createAttempt st a u ps =
      (st, .insufficientSeats (a.available_seats st.capacity)) := by
  simp [createAttempt, h]

theorem createAttempt_stale (st : ScheduleState) (a : SeatAvailability)
    (u : Nat) (ps : List PassengerInput)
    (hv : st.avail.version ≠ a.version)
    (hc : a.can_book st.capacity ps.length = true) :
    createAttempt st a u ps = (st, .concurrentModification) := by
  simp [createAttempt, hc, conditionalUpdate, hv]

theorem createBooking_insufficient (st : ScheduleState) (u : Nat)
    (ps : List PassengerInput)
    (h : st.avail.can_book st.capacity ps.length = false) :
    createBooking st u ps =
      (st, .insufficientSeats (st.avail.available_seats st.capacity)) := by
  simp [createBooking, createAttempt, h]

theorem createBooking_success (st : ScheduleState) (u : Nat)
    (ps : List PassengerInput)
    (h : st.avail.can_book st.capacity ps.length = true) :
    createBooking st u ps =
      ({ st with
          avail := ⟨st.avail.booked_seats + ps.length, st.avail.version + 1⟩,
          bookings := st.bookings ++
            [newBooking st.avail.booked_seats st.base_fare u ps] },
       .success (newBooking st.avail.booked_seats st.base_fare u ps)) := by
  simp [createBooking, createAttempt, h, conditionalUpdate, newBooking]

/-- Invariant tying the ledger to the committed bookings of a
schedule: the booked count equals the total passengers over CONFIRMED
bookings and stays within capacity, and the assigned seat numbers are
distinct and lie in `{1, …, booked_seats}`. -/
def LedgerInv (st : ScheduleState) : Prop :=
  sumConfirmed st.bookings = st.avail.booked_seats ∧
  st.avail.booked_seats ≤ st.capacity ∧
  (∀ s ∈ allSeats st, 1 ≤ s ∧ s ≤ st.avail.booked_seats) ∧
  (allSeats st).Nodup

theorem Inv_initial (capacity : Nat) (base_fare : ℚ) :
    LedgerInv (initialSchedule capacity base_fare) := by
  refine ⟨rfl, Nat.zero_le _, ?_, ?_⟩ <;> simp [initialSchedule, allSeats]

theorem sumConfirmed_append (l1 l2 : List Booking) :
    sumConfirmed (l1 ++ l2) = sumConfirmed l1 + sumConfirmed l2 := by
  simp [sumConfirmed]

theorem allSeats_append_booking (st : ScheduleState) (a : SeatAvailability)
    (b : Booking) :
    allSeats { st with avail := a, bookings := st.bookings ++ [b] } =
      allSeats st ++ b.passengers.map Passenger.seat_number := by
  simp [allSeats]

theorem Inv_createBooking (st : ScheduleState) (u : Nat)
    (ps : List PassengerInput) (h : LedgerInv st) :
    LedgerInv (createBooking st u ps).1 := by
  obtain ⟨hsum, hcap, hbound, hnodup⟩ := h
  cases hcb : st.avail.can_book st.capacity ps.length with
  | false =>
    rw [createBooking_insufficient st u ps hcb]
    exact ⟨hsum, hcap, hbound, hnodup⟩
  | true =>
    rw [createBooking_success st u ps hcb]
    dsimp only
    have hle : st.avail.booked_seats + ps.length ≤ st.capacity :=
      (can_book_iff _ _ _).mp hcb
    have hseats :
        (newBooking st.avail.booked_seats st.base_fare u ps).passengers.map
          Passenger.seat_number =
        List.range' (st.avail.booked_seats + 1) ps.length :=
      assignSeats_map_seat _ _
    have hred : ({ st with
        avail := ⟨st.avail.booked_seats + ps.length, st.avail.version + 1⟩,
        bookings := st.bookings ++
          [newBooking st.avail.booked_seats st.base_fare u ps] } :
        ScheduleState).avail.booked_seats = st.avail.booked_seats + ps.length := rfl
    refine ⟨?_, hle, ?_, ?_⟩
    · rw [sumConfirmed_append]
      have h1 : sumConfirmed [newBooking st.avail.booked_seats st.base_fare u ps]
          = ps.length := by
        simp [sumConfirmed, newBooking, assignSeats_length]
      omega
    · intro s hs
      rw [allSeats_append_booking, hseats, List.mem_append] at hs
      rcases hs with hs | hs
      · have := hbound s hs
        omega
      · rw [List.mem_range'_1] at hs
        omega
    · rw [allSeats_append_booking, hseats]
      refine List.Nodup.append hnodup (List.nodup_range' _ _) ?_
      intro s hs1 hs2
      rw [List.mem_range'_1] at hs2
      have := hbound s hs1
      omega

theorem capacity_createBooking (st : ScheduleState) (u : Nat)
    (ps : List PassengerInput) :
    (createBooking st u ps).1.capacity = st.capacity := by
  cases hcb : st.avail.can_book st.capacity ps.length with
  | false => rw [createBooking_insufficient st u ps hcb]
  | true => rw [createBooking_success st u ps hcb]

theorem Inv_runBookings (st : ScheduleState)
    (reqs : List (Nat × List PassengerInput)) (h : LedgerInv st) :
    LedgerInv (runBookings st reqs) := by
  induction reqs generalizing st with
  | nil => exact h
  | cons r rest ih =>
    exact ih _ (Inv_createBooking st r.1 r.2 h)

theorem capacity_runBookings (st : ScheduleState)
    (reqs : List (Nat × List PassengerInput)) :
    (runBookings st reqs).capacity = st.capacity := by
  induction reqs generalizing st with
  | nil => rfl
  | cons r rest ih =>
    have hstep : runBookings st (r :: rest) =
        runBookings (createBooking st r.1 r.2).1 rest := rfl
    rw [hstep, ih, capacity_createBooking]

theorem createAttempt_success (st : ScheduleState) (a : SeatAvailability)
    (u : Nat) (ps : List PassengerInput)
    (hv : st.avail.version = a.version)
    (hc : a.can_book st.capacity ps.length = true) :
    createAttempt st a u ps =
      ({ st with
          avail := ⟨a.booked_seats + ps.length, a.version + 1⟩,
          bookings := st.bookings ++ [newBooking a.booked_seats st.base_fare u ps] },
       .success (newBooking a.booked_seats st.base_fare u ps)) := by
  simp [createAttempt, hc, conditionalUpdate, hv, newBooking]

/-- **C1.** For any `ScheduleRun` with capacity `C`, after any sequence
of `createBooking` operations (each serialised on the schedule's
ledger row), the sum of passengers across all CONFIRMED bookings of
the schedule never exceeds `C`; and an attempt that would push that
sum beyond `C` is rejected with `InsufficientCapacity` — the state is
unchanged — rather than committed. -/
theorem C1_no_oversell (C : Nat) (fare : ℚ)
    (reqs : List (Nat × List PassengerInput)) :
    sumConfirmed (runBookings (initialSchedule C fare) reqs).bookings ≤ C ∧
    (∀ u ps, C < sumConfirmed (runBookings (initialSchedule C fare) reqs).bookings
        + ps.length →
      ∃ a, createBooking (runBookings (initialSchedule C fare) reqs) u ps =
        (runBookings (initialSchedule C fare) reqs, .insufficientSeats a)) := by
  have hInv := Inv_runBookings _ reqs (Inv_initial C fare)
  have hcap : (runBookings (initialSchedule C fare) reqs).capacity = C :=
    capacity_runBookings _ reqs
  obtain ⟨hsum, hle, _, _⟩ := hInv
  constructor
  · omega
  · intro u ps hexceed
    have hcb : (runBookings (initialSchedule C fare) reqs).avail.can_book
        (runBookings (initialSchedule C fare) reqs).capacity ps.length = false := by
      rw [← Bool.not_eq_true, can_book_iff]
      omega
    exact ⟨_, createBooking_insufficient _ u ps hcb⟩

theorem C1_no_oversell_witness :
    sumConfirmed (runBookings (initialSchedule 2 1)
      [(1, [⟨"A", 30, .M⟩, ⟨"B", 28, .F⟩])]).bookings ≤ 2 ∧
    ∃ a, createBooking (runBookings (initialSchedule 2 1)
        [(1, [⟨"A", 30, .M⟩, ⟨"B", 28, .F⟩])]) 7 [⟨"C", 5, .O⟩] =
      (runBookings (initialSchedule 2 1) [(1, [⟨"A", 30, .M⟩, ⟨"B", 28, .F⟩])],
       .insufficientSeats a) :=
  ⟨(C1_no_oversell 2 1 _).1,
   (C1_no_oversell 2 1 _).2 7 [⟨"C", 5, .O⟩] (by decide)⟩

/-- **C2.** The ledger commit is a single conditional write on the
`SeatAvailability` row: it reports affected-row count 1 and applies
`booked_seats = newBooked`, `version = expectedVersion + 1` if and
only if the stored version still equals `expectedVersion`; when the
stored version differs it mutates nothing and reports affected-row
count 0. -/
theorem C2_conditional_update (row : SeatAvailability)
    (expectedVersion newBooked : Nat) :
    ((conditionalUpdate row expectedVersion newBooked).2 = 1 ↔
      row.version = expectedVersion) ∧
    (row.version = expectedVersion →
      conditionalUpdate row expectedVersion newBooked =
        (⟨newBooked, expectedVersion + 1⟩, 1)) ∧
    (row.version ≠ expectedVersion →
      conditionalUpdate row expectedVersion newBooked = (row, 0)) := by
  unfold conditionalUpdate
  by_cases h : row.version = expectedVersion <;> simp [h]

theorem C2_conditional_update_witness :
    conditionalUpdate ⟨5, 3⟩ 3 9 = (⟨9, 4⟩, 1) ∧
    conditionalUpdate ⟨5, 3⟩ 2 9 = (⟨5, 3⟩, 0) :=
  ⟨(C2_conditional_update ⟨5, 3⟩ 3 9).2.1 rfl,
   (C2_conditional_update ⟨5, 3⟩ 2 9).2.2 (by decide)⟩

/-- **C3.** Every successful `createBooking` that read booked count `b`
under the lock assigns, to the `i`-th passenger of the input (0-based),
`seat_number = b + i + 1`: the booking occupies the contiguous 1-based
block `b+1 … b+n`, in input order (names kept aligned with seats). -/
theorem C3_seat_assignment (st : ScheduleState) (u : Nat)
    (ps : List PassengerInput) (st' : ScheduleState) (bk : Booking)
    (h : createBooking st u ps = (st', .success bk)) :
    bk.passengers.map Passenger.seat_number =
      List.range' (st.avail.booked_seats + 1) ps.length ∧
    bk.passengers.map Passenger.name = ps.map PassengerInput.name ∧
    ∀ i, i < ps.length →
      (bk.passengers.map Passenger.seat_number)[i]? =
        some (st.avail.booked_seats + i + 1) := by
  cases hcb : st.avail.can_book st.capacity ps.length with
  | false =>
    rw [createBooking_insufficient st u ps hcb] at h
    simp at h
  | true =>
    rw [createBooking_success st u ps hcb] at h
    have hbk : bk = newBooking st.avail.booked_seats st.base_fare u ps := by
      have := congrArg Prod.snd h
      simpa using this.symm
    subst hbk
    refine ⟨assignSeats_map_seat _ _, assignSeats_map_name _ _, ?_⟩
    intro i hi
    rw [newBooking]
    rw [assignSeats_map_seat _ _]
    rw [List.getElem?_eq_getElem (by simpa using hi)]
    simp
    omega

theorem C3_seat_assignment_witness :
    (createBooking (initialSchedule 100 1) 7
        [⟨"A", 30, .M⟩, ⟨"B", 28, .F⟩, ⟨"C", 5, .O⟩]).2 =
      .success (newBooking 0 1 7 [⟨"A", 30, .M⟩, ⟨"B", 28, .F⟩, ⟨"C", 5, .O⟩]) ∧
    (newBooking 0 1 7
        [⟨"A", 30, .M⟩, ⟨"B", 28, .F⟩, ⟨"C", 5, .O⟩]).passengers.map
      Passenger.seat_number = [1, 2, 3] ∧
    (newBooking 0 1 7
        [⟨"A", 30, .M⟩, ⟨"B", 28, .F⟩, ⟨"C", 5, .O⟩]).passengers.map
      Passenger.name = ["A", "B", "C"] ∧
    (createBooking (initialSchedule 100 1) 7
        [⟨"A", 30, .M⟩, ⟨"B", 28, .F⟩, ⟨"C", 5, .O⟩]).1.avail = ⟨3, 1⟩ :=
  ⟨rfl,
   ((C3_seat_assignment (initialSchedule 100 1) 7
      [⟨"A", 30, .M⟩, ⟨"B", 28, .F⟩, ⟨"C", 5, .O⟩]
      (createBooking (initialSchedule 100 1) 7
        [⟨"A", 30, .M⟩, ⟨"B", 28, .F⟩, ⟨"C", 5, .O⟩]).1
      (newBooking 0 1 7 [⟨"A", 30, .M⟩, ⟨"B", 28, .F⟩, ⟨"C", 5, .O⟩])
      rfl).1).trans (by decide),
   ((C3_seat_assignment (initialSchedule 100 1) 7
      [⟨"A", 30, .M⟩, ⟨"B", 28, .F⟩, ⟨"C", 5, .O⟩]
      (createBooking (initialSchedule 100 1) 7
        [⟨"A", 30, .M⟩, ⟨"B", 28, .F⟩, ⟨"C", 5, .O⟩]).1
      (newBooking 0 1 7 [⟨"A", 30, .M⟩, ⟨"B", 28, .F⟩, ⟨"C", 5, .O⟩])
      rfl).2.1).trans (by decide),
   by decide⟩

/-- **C4.** For any `ScheduleRun`, after any sequence of serialised
`createBooking` operations no two `Passenger` rows across all its
bookings share a `seat_number`. -/
theorem C4_seat_uniqueness (C : Nat) (fare : ℚ)
    (reqs : List (Nat × List PassengerInput)) :
    (allSeats (runBookings (initialSchedule C fare) reqs)).Nodup :=
  (Inv_runBookings _ reqs (Inv_initial C fare)).2.2.2

/-- **C5.** If, under the lock, `available = capacity - booked` is
strictly less than the number of requested passengers, `createBooking`
aborts without committing anything: the state (in particular
`booked_seats` and `version`) is unchanged and the rejection reports
the actual available count. -/
theorem C5_insufficient (st : ScheduleState) (u : Nat)
    (ps : List PassengerInput)
    (h : st.avail.available_seats st.capacity < (ps.length : Int)) :
    createBooking st u ps =
      (st, .insufficientSeats (st.avail.available_seats st.capacity)) := by
  apply createBooking_insufficient
  rw [← Bool.not_eq_true, can_book_iff]
  simp [SeatAvailability.available_seats] at h
  omega

theorem C5_insufficient_witness :
    createBooking ⟨10, 1, ⟨9, 0⟩, []⟩ 7 [⟨"A", 30, .M⟩, ⟨"B", 28, .F⟩] =
      (⟨10, 1, ⟨9, 0⟩, []⟩,
       .insufficientSeats ((⟨9, 0⟩ : SeatAvailability).available_seats 10)) ∧
    (⟨9, 0⟩ : SeatAvailability).available_seats 10 = 1 ∧
    (createBooking ⟨10, 1, ⟨9, 0⟩, []⟩ 7
      [⟨"A", 30, .M⟩, ⟨"B", 28, .F⟩]).1.avail.booked_seats = 9 :=
  ⟨C5_insufficient ⟨10, 1, ⟨9, 0⟩, []⟩ 7 _ (by decide), by decide, by decide⟩

/-- **C6.** `createBooking` is all-or-nothing: when the
version-conditional ledger update reports 0 affected rows (the stored
row's version no longer matches the snapshot read), the transaction
rolls back — the resulting state is exactly the pre-attempt state, so
no `Booking`, `Passenger`, or ledger change from the attempt is
observable, and the attempt reports `ConcurrentModification`. -/
theorem C6_atomic_rollback (st : ScheduleState) (snapshot : SeatAvailability)
    (u : Nat) (ps : List PassengerInput)
    (hv : st.avail.version ≠ snapshot.version) :
    (createAttempt st snapshot u ps).1 = st ∧
    (snapshot.can_book st.capacity ps.length = true →
      createAttempt st snapshot u ps = (st, .concurrentModification)) := by
  constructor
  · cases hcb : snapshot.can_book st.capacity ps.length with
    | false => rw [createAttempt_insufficient st snapshot u ps hcb]
    | true => rw [createAttempt_stale st snapshot u ps hv hcb]
  · intro hcb
    exact createAttempt_stale st snapshot u ps hv hcb

theorem C6_atomic_rollback_witness :
    createAttempt ⟨10, 1, ⟨2, 5⟩, []⟩ ⟨2, 4⟩ 7 [⟨"A", 30, .M⟩] =
      (⟨10, 1, ⟨2, 5⟩, []⟩, .concurrentModification) :=
  (C6_atomic_rollback ⟨10, 1, ⟨2, 5⟩, []⟩ ⟨2, 4⟩ 7 [⟨"A", 30, .M⟩]
    (by decide)).2 (by decide)

/-- One iteration of `create_sample_bookings`
(`core/management/commands/seed_db.py`, lines 172–199) for one user on
one schedule: `Booking.objects.create(..., num_passengers=2,
total_fare=base_fare*2, status='CONFIRMED')`, two
`Passenger.objects.create` rows seated 1 and 2, then
`availability.booked_seats += 2; availability.save()` — an
unconditional full-row UPDATE storing the in-memory field values, so
the `version` column is written back at its stale read value, with no
increment and no `WHERE version = …` guard. -/
def seedSampleBooking (st : ScheduleState) (user : Nat) (user_name : String) :
    ScheduleState :=
  let booking : Booking :=
    { user := user, num_passengers := 2, total_fare := st.base_fare * 2,
      status := .CONFIRMED,
      passengers :=
        [{ name := user_name, age := 30, gender := .M, seat_number := 1 },
         { name := user_name ++ " Jr", age := 25, gender := .M, seat_number := 2 }] }
  { st with
    bookings := st.bookings ++ [booking],
    avail := ⟨st.avail.booked_seats + 2, st.avail.version⟩ }

/-- **C7 (amended).** Within the booking transaction
(`BookingCreateSerializer.create`), `SeatAvailability.version`
strictly increases by exactly 1 on every successful commit, never
decreases, and never skips a value on a successful commit; on any
non-successful attempt the ledger row is untouched, and that path
writes the version only through the conditional update, which sets it
to the snapshot's version plus 1. The `seed_db` management command's
sample-booking path, by contrast, also commits CONFIRMED bookings but
writes the `SeatAvailability` row via an unconditional
`availability.save()`, incrementing `booked_seats` by 2 while leaving
`version` at its stale read value. -/
theorem C7_version_monotonic (st : ScheduleState) (u : Nat)
    (ps : List PassengerInput) :
    (∀ bk, (createBooking st u ps).2 = .success bk →
      (createBooking st u ps).1.avail.version = st.avail.version + 1) ∧
    ((∀ bk, (createBooking st u ps).2 ≠ .success bk) →
      (createBooking st u ps).1.avail = st.avail) ∧
    st.avail.version ≤ (createBooking st u ps).1.avail.version ∧
    (∀ a, (createAttempt st a u ps).1.avail = st.avail ∨
      ((createAttempt st a u ps).1.avail = ⟨a.booked_seats + ps.length, a.version + 1⟩ ∧
       st.avail.version = a.version)) ∧
    (∀ user_name, (seedSampleBooking st u user_name).avail =
      ⟨st.avail.booked_seats + 2, st.avail.version⟩) := by
  refine ⟨?_, ?_, ?_, ?_, fun user_name => rfl⟩
  · intro bk hbk
    cases hcb : st.avail.can_book st.capacity ps.length with
    | false => rw [createBooking_insufficient st u ps hcb] at hbk; simp at hbk
    | true => rw [createBooking_success st u ps hcb]
  · intro hne
    cases hcb : st.avail.can_book st.capacity ps.length with
    | false => rw [createBooking_insufficient st u ps hcb]
    | true =>
      exact absurd (congrArg Prod.snd (createBooking_success st u ps hcb))
        (hne (newBooking st.avail.booked_seats st.base_fare u ps))
  · cases hcb : st.avail.can_book st.capacity ps.length with
    | false => rw [createBooking_insufficient st u ps hcb]
    | true => rw [createBooking_success st u ps hcb]; exact Nat.le_succ _
  · intro a
    cases hcb : a.can_book st.capacity ps.length with
    | false => rw [createAttempt_insufficient st a u ps hcb]; exact Or.inl rfl
    | true =>
      by_cases hv : st.avail.version = a.version
      · rw [createAttempt_success st a u ps hv hcb]
        exact Or.inr ⟨rfl, hv⟩
      · rw [createAttempt_stale st a u ps hv hcb]
        exact Or.inl rfl

theorem C7_version_monotonic_witness :
    (createBooking ⟨10, 1, ⟨2, 5⟩, []⟩ 7 [⟨"A", 30, .M⟩]).1.avail.version = 5 + 1 ∧
    (createBooking ⟨1, 1, ⟨1, 3⟩, []⟩ 7 [⟨"A", 30, .M⟩]).1.avail = ⟨1, 3⟩ :=
  ⟨(C7_version_monotonic ⟨10, 1, ⟨2, 5⟩, []⟩ 7 [⟨"A", 30, .M⟩]).1
      (newBooking 2 1 7 [⟨"A", 30, .M⟩]) rfl,
   (C7_version_monotonic ⟨1, 1, ⟨1, 3⟩, []⟩ 7 [⟨"A", 30, .M⟩]).2.1
      (fun bk hbk => by
        rw [createBooking_insufficient _ _ _ (by decide)] at hbk
        exact CreateResult.noConfusion hbk)⟩

/-- **C7, counterexample to the unamended claim.** The repository has
a second code path that commits a CONFIRMED booking and writes the
`SeatAvailability` row outside the conditional update:
`create_sample_bookings` in the `seed_db` management command. Run on a
freshly seeded schedule (capacity 500, fare 2500, ledger `⟨0, 0⟩`), it
adds a CONFIRMED booking of 2 passengers and rewrites the ledger row
with `booked_seats = 2` while the version stays 0 — the version is not
incremented by 1 on this successful commit. -/
theorem C7_seed_version_not_incremented :
    sumConfirmed (seedSampleBooking (initialSchedule 500 2500) 1
      "John Doe").bookings = 2 ∧
    (seedSampleBooking (initialSchedule 500 2500) 1 "John Doe").avail.booked_seats
      = 2 ∧
    (seedSampleBooking (initialSchedule 500 2500) 1 "John Doe").avail.version
      = 0 ∧
    ¬ (seedSampleBooking (initialSchedule 500 2500) 1 "John Doe").avail.version
      = (initialSchedule 500 2500).avail.version + 1 := by
  refine ⟨?_, rfl, rfl, by decide⟩
  decide

/-- `string.ascii_uppercase + string.digits`, the alphabet sampled by
`generate_pnr` (`bookings/models.py`). -/
def pnr_alphabet : List Char := "ABCDEFGHIJKLMNOPQRSTUVWXYZ0123456789".toList

/-- `generate_pnr` (`bookings/models.py`):
`''.join(random.choices(string.ascii_uppercase + string.digits, k=10))`.
The ten random draws are modelled by a list of naturals, one per
position, each reduced modulo the alphabet size. -/
def generate_pnr (draws : List Nat) : String :=
  String.mk ((List.range 10).map fun i => pnr_alphabet.getD (draws.getD i 0 % 36) 'A')

/-- The regeneration loop of `Booking.save` (`while True: pnr =
generate_pnr(); if not Booking.objects.filter(pnr=pnr).exists(): …`),
driven by the stream of draw lists for the successive `generate_pnr`
calls; `none` when the modelled stream is exhausted. -/
def pnr_retry (existing : List String) : List (List Nat) → Option String
  | [] => none
  | d :: rest =>
    if existing.contains (generate_pnr d) then pnr_retry existing rest
    else some (generate_pnr d)

/-- `Booking.save` (`bookings/models.py`), restricted to its effect on
`pnr`: the collision-checked regeneration runs only when `self.pnr` is
falsy (the empty string); for any other value the instance's current
`pnr` is kept and no check against existing bookings happens before
`super().save()`. -/
def booking_save_pnr (pnr : String) (existing : List String)
    (stream : List (List Nat)) : Option String :=
  if pnr = "" then pnr_retry existing stream else some pnr

/-- `Booking.objects.create(...)` as invoked by
`BookingCreateSerializer.create` (no `pnr` argument): Django fills the
field default `generate_pnr()` at instantiation, then runs
`Booking.save`. -/
def booking_create_pnr (defaultDraws : List Nat) (existing : List String)
    (stream : List (List Nat)) : Option String :=
  booking_save_pnr (generate_pnr defaultDraws) existing stream

theorem generate_pnr_length (d : List Nat) : (generate_pnr d).length = 10 := by
  simp [generate_pnr, String.length]

theorem generate_pnr_ne_empty (d : List Nat) : generate_pnr d ≠ "" := by
  intro h
  have := generate_pnr_length d
  rw [h] at this
  simp [String.length] at this

/-- **C8.** The claim says the creation-time PNR is collision-checked
against existing bookings and regenerated until unique. On the code's
creation path the field default has already filled a (nonempty)
10-character code before `Booking.save` runs, so the save-time check
`if not self.pnr` is never taken: the freshly drawn code is kept
without ever being compared with existing bookings, even when it
equals an existing booking's code. -/
theorem C8_pnr_collision_unchecked :
    (∀ defaultDraws existing stream,
      booking_create_pnr defaultDraws existing stream =
        some (generate_pnr defaultDraws)) ∧
    booking_create_pnr (List.replicate 10 0) ["AAAAAAAAAA"] [[1]] =
      some "AAAAAAAAAA" ∧
    "AAAAAAAAAA" ∈ ["AAAAAAAAAA"] := by
  refine ⟨?_, by decide, by decide⟩
  intro d e s
  unfold booking_create_pnr booking_save_pnr
  rw [if_neg (generate_pnr_ne_empty d)]

/-- One document of the `api_logs` collection, as built by
`log_api_request` (`utils/mongo.py`): endpoint, method, optional user
id, request parameters, response status, execution time and optional
results count. -/
structure LogEntry where
  endpoint : String
  method : String
  user_id : Option Nat
  request_params : List (String × String)
  response_status : Nat
  execution_time_ms : ℚ
  results_count : Option Nat
  deriving Repr, DecidableEq

/-- The reporting store (MongoDB) when reachable: the `api_logs` and
`route_analytics` collections. `Option MongoState` with `none` models
the unavailable store (`get_mongo_db()` returning `None`). -/
structure MongoState where
  api_logs : List LogEntry
  route_analytics : List ((String × String) × Nat)
  deriving Repr, DecidableEq

/-- `request_params['k']` / `'k' in request_params`. -/
def lookupParam (params : List (String × String)) (k : String) : Option String :=
  (params.find? fun p => p.1 == k).map Prod.snd

/-- The upsert-increment of `update_route_analytics`:
`update_one({source, destination}, {$inc: {search_count: 1}},
upsert=True)` on the `(source, destination)`-keyed collection. -/
def upsertRouteCount : List ((String × String) × Nat) → String → String →
    List ((String × String) × Nat)
  | [], s, d => [((s, d), 1)]
  | r :: rest, s, d =>
    if r.1 = (s, d) then (r.1, r.2 + 1) :: rest
    else r :: upsertRouteCount rest s d

/-- `update_route_analytics` (`utils/mongo.py`): returns silently when
the store is unavailable; the driver call is inside `try/except`, so a
raising update (`updateRaises`) is absorbed, leaving the store
unchanged. -/
def update_route_analytics (db : Option MongoState) (updateRaises : Bool)
    (source destination : String) : Option MongoState :=
  match db with
  | none => none
  | some m =>
    if updateRaises then some m
    else some { m with
      route_analytics := upsertRouteCount m.route_analytics source destination }

/-- `log_api_request` (`utils/mongo.py`): skips when the store is
unavailable; otherwise inserts the entry into `api_logs` and, for a
train search carrying `source` and `destination` parameters, updates
the route analytics. The body is inside `try/except`, so a raising
insert (`insertRaises`) is absorbed. -/
def log_api_request (db : Option MongoState) (insertRaises updateRaises : Bool)
    (entry : LogEntry) : Option MongoState :=
  match db with
  | none => none
  | some m =>
    if insertRaises then some m
    else
      let m2 : MongoState := { m with api_logs := m.api_logs ++ [entry] }
      if entry.endpoint = "/api/trains/search/" ∧
          (lookupParam entry.request_params "source").isSome ∧
          (lookupParam entry.request_params "destination").isSome then
        update_route_analytics (some m2) updateRaises
          ((lookupParam entry.request_params "source").getD "")
          ((lookupParam entry.request_params "destination").getD "")
      else some m2

/-- The request as seen by `APILoggingMiddleware`: path, method, the
authenticated user's id when present, and the GET parameters. -/
structure HttpRequest where
  path : String
  method : String
  user_id : Option Nat
  get_params : List (String × String)
  deriving Repr, DecidableEq

/-- The response shape the middleware inspects: the status code and
the results count it extracts from `response.data` when present. -/
structure HttpResponse where
  status_code : Nat
  results_count : Option Nat
  deriving Repr, DecidableEq

/-- Python's `str.rstrip('/')`. -/
def rstripSlashes (s : String) : String :=
  String.mk ((s.data.reverse.dropWhile fun c => c == '/').reverse)

/-- `APILoggingMiddleware.__call__` (`utils/middleware.py`): decides
`should_log` by matching the path against `LOGGED_ENDPOINTS`, obtains
the response from `get_response`, and then — for logged endpoints —
builds the log entry and calls `log_api_request` inside `try/except`,
so even a raising logging call (`logCallRaises`) leaves the response
untouched. `elapsed_ms` stands for the measured wall-clock time.
Returns the response handed back to the client together with the
resulting reporting-store state. -/
def middleware_call (db : Option MongoState)
    (insertRaises updateRaises logCallRaises : Bool) (elapsed_ms : ℚ)
    (get_response : HttpRequest → HttpResponse) (request : HttpRequest) :
    HttpResponse × Option MongoState :=
  let should_log := ["/api/trains/search/"].any fun e =>
    request.path.startsWith (rstripSlashes e)
  let response := get_response request
  if should_log then
    let request_params :=
      if request.method = "GET" then request.get_params else []
    let entry : LogEntry :=
      { endpoint := request.path, method := request.method,
        user_id := request.user_id, request_params := request_params,
        response_status := response.status_code,
        execution_time_ms := elapsed_ms,
        results_count := response.results_count }
    if logCallRaises then (response, db)
    else (response, log_api_request db insertRaises updateRaises entry)
  else (response, db)

/-- A row of the `get_top_routes` aggregation result. -/
structure RouteCount where
  source : String
  destination : String
  search_count : Nat
  deriving Repr, DecidableEq

/-- `get_top_routes` (`utils/mongo.py`): `[]` when the store is
unavailable; the aggregation (the pymongo driver call, abstracted as
`aggregate`) runs inside `try/except`, returning `[]` if it raises. -/
def get_top_routes (db : Option MongoState)
    (aggregate : MongoState → Except String (List RouteCount)) :
    List RouteCount :=
  match db with
  | none => []
  | some m =>
    match aggregate m with
    | .ok r => r
    | .error _ => []

/-- `get_api_logs` (`utils/mongo.py`): the filtered log retrieval has
the same containment shape — `[]` when the store is unavailable, and
the driver query (abstracted as `find`) runs inside `try/except`,
returning `[]` if it raises. -/
def get_api_logs (db : Option MongoState)
    (find : MongoState → Except String (List LogEntry)) : List LogEntry :=
  match db with
  | none => []
  | some m =>
    match find m with
    | .ok r => r
    | .error _ => []

/-- **C9.** Event-logging failures are fully absorbed: whatever the
state of the logging sink (unavailable store, raising insert, raising
analytics update, raising logging call), the middleware returns
exactly the handler's response, identical to the response when logging
succeeds; and with the reporting store unavailable the read paths
degrade to empty results instead of failing the caller. -/
theorem C9_logging_absorbed (db db' : Option MongoState)
    (iR uR lR iR' uR' lR' : Bool) (t t' : ℚ)
    (get_response : HttpRequest → HttpResponse) (request : HttpRequest)
    (aggregate : MongoState → Except String (List RouteCount))
    (find : MongoState → Except String (List LogEntry)) :
    (middleware_call db iR uR lR t get_response request).1 =
      get_response request ∧
    (middleware_call db iR uR lR t get_response request).1 =
      (middleware_call db' iR' uR' lR' t' get_response request).1 ∧
    get_top_routes none aggregate = [] ∧
    get_api_logs none find = [] := by
  have habs : ∀ (d : Option MongoState) (a b c : Bool) (s : ℚ),
      (middleware_call d a b c s get_response request).1 =
        get_response request := by
    intro d a b c s
    unfold middleware_call
    dsimp only
    split
    · split <;> rfl
    · rfl
  exact ⟨habs db iR uR lR t,
    (habs db iR uR lR t).trans (habs db' iR' uR' lR' t').symm, rfl, rfl⟩

/-- Python's `str.upper()` as applied to the PNR in
`BookingDetailView.get` (ASCII: the stored codes are drawn from
uppercase letters and digits). -/
def str_upper (s : String) : String :=
  String.mk (s.data.map Char.toUpper)

/-- The columns of a `Booking` row that `BookingDetailView.get`
filters on: the reservation code and the owning user. -/
structure BookingRow where
  pnr : String
  user : Nat
  deriving Repr, DecidableEq

/-- The two responses of `BookingDetailView.get`: HTTP 200 with the
serialized booking, or HTTP 404 `{'error': 'Booking not found'}`. -/
inductive DetailResponse where
  | ok (booking : BookingRow)
  | notFound (error : String)
  deriving Repr, DecidableEq

/-- `BookingDetailView.get` (`bookings/views.py`): fetches the booking
with `pnr=pnr.upper(), user=request.user`; `Booking.DoesNotExist` is
answered with the 404 `Booking not found` response. (`pnr` is unique,
so the Django `get` matches at most one row.) -/
def bookingDetailGet (db : List BookingRow) (request_user : Nat)
    (pnr : String) : DetailResponse :=
  match db.find? fun b => b.pnr == str_upper pnr && b.user == request_user with
  | some b => .ok b
  | none => .notFound "Booking not found"

/-- **C10.** Booking lookup by reservation code uppercases its input
before matching (two inputs equal up to case receive identical
responses) and is scoped to the requesting identity: when the
requester owns no booking with the uppercased code — even if another
user owns one — the response is exactly the 404 `Booking not found`
response given for a nonexistent code; and a successful lookup only
ever returns a booking of the requester, taken from the store. -/
theorem C10_detail_lookup (db : List BookingRow) (u : Nat) (p q : String) :
    (str_upper p = str_upper q →
      bookingDetailGet db u p = bookingDetailGet db u q) ∧
    ((∀ b ∈ db, b.pnr = str_upper p → b.user ≠ u) →
      bookingDetailGet db u p = .notFound "Booking not found") ∧
    (∀ b, bookingDetailGet db u p = .ok b → b ∈ db ∧ b.user = u) := by
  refine ⟨?_, ?_, ?_⟩
  · intro h
    unfold bookingDetailGet
    rw [h]
  · intro h
    unfold bookingDetailGet
    have hnone : (db.find? fun b => b.pnr == str_upper p && b.user == u) = none := by
      rw [List.find?_eq_none]
      intro b hb
      simp only [Bool.and_eq_true, beq_iff_eq, not_and]
      exact h b hb
    rw [hnone]
  · intro b hb
    unfold bookingDetailGet at hb
    cases hfind : db.find? fun x => x.pnr == str_upper p && x.user == u with
    | none => rw [hfind] at hb; exact absurd hb (by simp)
    | some b' =>
      rw [hfind] at hb
      have hbb : b' = b := by
        cases hb
        rfl
      subst hbb
      have hmem := List.mem_of_find?_eq_some hfind
      have hpred := List.find?_some hfind
      simp only [Bool.and_eq_true, beq_iff_eq] at hpred
      exact ⟨hmem, hpred.2⟩

theorem C10_detail_lookup_witness :
    bookingDetailGet [⟨"ABCDE12345", 1⟩] 2 "abcde12345" =
      .notFound "Booking not found" ∧
    bookingDetailGet [⟨"ABCDE12345", 1⟩] 2 "abcde12345" =
      bookingDetailGet [⟨"ABCDE12345", 1⟩] 2 "AbCdE12345" :=
  ⟨(C10_detail_lookup [⟨"ABCDE12345", 1⟩] 2 "abcde12345" "x").2.1 (by decide),
   (C10_detail_lookup [⟨"ABCDE12345", 1⟩] 2 "abcde12345" "AbCdE12345").1
     (by decide)⟩
